import Mathlib

/-!
Shallow embedding of the RustJin metrics-and-guardrail core (src/main.rs).

Conventions of the embedding:
* Rust `u64` / `u32` / `u16` / `usize` values are embedded as `Nat`.  Every
  counter in the source is only ever incremented by one through
  `AtomicU64::fetch_add(1, Ordering::Relaxed)`; the spec describes each
  counter as a non-negative, monotonically increasing integer for the
  lifetime of the process, so the embedding uses unbounded `Nat` addition
  (a 2^64 wraparound is unreachable within the modelled scope).
* The `HashMap<String, u64>` of endpoint statistics is embedded as an
  association list `List (String × Nat)` with at most one entry per key.
* Each axum handler `async fn handle_x(state, args) -> Response` is embedded
  as a pure function `Metrics → args → Response × Metrics`: the returned
  `Metrics` is the global state after the handler's increments.  The
  intentional suspension of the delay endpoint is recorded in the response
  as the number of seconds the handler sleeps before responding.
* External library calls that are not part of this repository (base64
  decoding of the Authorization header) enter the embedded handler as an
  already-decoded parameter, mirroring exactly the case analysis the source
  performs on the library's result.
-/

namespace RustJin

/-- A JSON field value as used by the handlers' `json!` response bodies:
a string, a natural number, or a boolean. -/
inductive JsonVal where
  | s (v : String)
  | n (v : Nat)
  | b (v : Bool)
deriving DecidableEq, Repr

/-- A JSON object body: an ordered list of key/value fields, mirroring the
`json!({...})` literals in the source. -/
abbrev JsonBody := List (String × JsonVal)

/-- Embedded HTTP response produced by a handler: status code, optional
`location` header, JSON body, raw byte body (for `/bytes/:n`), plain text
body (for `/base64/:value`), and the seconds the handler suspends before
responding (non-zero only for the allowed branch of `/delay/:seconds`). -/
structure Response where
  status : Nat
  location : Option String := none
  body : JsonBody := []
  rawBytes : List Nat := []
  textBody : Option String := none
  sleptSeconds : Nat := 0
deriving DecidableEq, Repr

/-- `stats.entry(endpoint).or_insert(0) += 1` on the association-list
embedding of the endpoint `HashMap`: bump the key's count, inserting the
key at count 1 when absent. -/
def recordKey : List (String × Nat) → String → List (String × Nat)
  | [], k => [(k, 1)]
  | (k', c) :: rest, k =>
      if k' = k then (k', c + 1) :: rest else (k', c) :: recordKey rest k

/-- Lookup of an endpoint's count in the association-list embedding of the
endpoint `HashMap`, defaulting to 0 for an absent key. -/
def countOf : List (String × Nat) → String → Nat
  | [], _ => 0
  | (k', c) :: rest, k => if k' = k then c else countOf rest k

/-- The `Metrics` struct of src/main.rs: seven independent atomic counters
plus the mutex-protected endpoint statistics map. -/
structure Metrics where
  total_requests : Nat
  successful_requests : Nat
  failed_requests : Nat
  redirects_blocked : Nat
  delays_blocked : Nat
  bytes_blocked : Nat
  dangerous_urls_blocked : Nat
  endpoint_stats : List (String × Nat)
deriving DecidableEq, Repr

/-- `Metrics::new()`: every counter zero, empty endpoint map. -/
def Metrics.new : Metrics :=
  { total_requests := 0
    successful_requests := 0
    failed_requests := 0
    redirects_blocked := 0
    delays_blocked := 0
    bytes_blocked := 0
    dangerous_urls_blocked := 0
    endpoint_stats := [] }

/-- `Metrics::increment_total`: `total_requests.fetch_add(1)`. -/
def Metrics.increment_total (m : Metrics) : Metrics :=
  { m with total_requests := m.total_requests + 1 }

/-- `Metrics::increment_success`: `successful_requests.fetch_add(1)`. -/
def Metrics.increment_success (m : Metrics) : Metrics :=
  { m with successful_requests := m.successful_requests + 1 }

/-- `Metrics::increment_failed`: `failed_requests.fetch_add(1)`. -/
def Metrics.increment_failed (m : Metrics) : Metrics :=
  { m with failed_requests := m.failed_requests + 1 }

/-- `Metrics::increment_redirects_blocked`. -/
def Metrics.increment_redirects_blocked (m : Metrics) : Metrics :=
  { m with redirects_blocked := m.redirects_blocked + 1 }

/-- `Metrics::increment_delays_blocked`. -/
def Metrics.increment_delays_blocked (m : Metrics) : Metrics :=
  { m with delays_blocked := m.delays_blocked + 1 }

/-- `Metrics::increment_bytes_blocked`. -/
def Metrics.increment_bytes_blocked (m : Metrics) : Metrics :=
  { m with bytes_blocked := m.bytes_blocked + 1 }

/-- `Metrics::increment_dangerous_urls`. -/
def Metrics.increment_dangerous_urls (m : Metrics) : Metrics :=
  { m with dangerous_urls_blocked := m.dangerous_urls_blocked + 1 }

/-- `Metrics::record_endpoint(endpoint)`. -/
def Metrics.record_endpoint (m : Metrics) (endpoint : String) : Metrics :=
  { m with endpoint_stats := recordKey m.endpoint_stats endpoint }

/-- The `SecurityBlocks` response struct of src/main.rs. -/
structure SecurityBlocks where
  redirects_blocked : Nat
  delays_blocked : Nat
  bytes_blocked : Nat
  dangerous_urls_blocked : Nat
deriving DecidableEq, Repr

/-- The `MetricsResponse` snapshot struct of src/main.rs. -/
structure MetricsResponse where
  total_requests : Nat
  successful_requests : Nat
  failed_requests : Nat
  security_blocks : SecurityBlocks
  endpoint_stats : List (String × Nat)
deriving DecidableEq, Repr

/-- `Metrics::get_stats()`: read every counter and clone the endpoint map
into an immutable snapshot. -/
def Metrics.get_stats (m : Metrics) : MetricsResponse :=
  { total_requests := m.total_requests
    successful_requests := m.successful_requests
    failed_requests := m.failed_requests
    security_blocks :=
      { redirects_blocked := m.redirects_blocked
        delays_blocked := m.delays_blocked
        bytes_blocked := m.bytes_blocked
        dangerous_urls_blocked := m.dangerous_urls_blocked }
    endpoint_stats := m.endpoint_stats }

/-! String helpers embedding the `str` operations the handlers use.  The
deny-list prefixes and the concrete URLs of the claims are ASCII; the
embedding implements the ASCII behaviour of Rust's Unicode `trim` and
`to_lowercase` (on ASCII input the two coincide). -/

/-- `pat.is_prefix_of s` on character lists: embeds `str::starts_with`. -/
def startsWithChars : List Char → List Char → Bool
  | [], _ => true
  | _ :: _, [] => false
  | p :: ps, c :: cs => p = c && startsWithChars ps cs

/-- `s.starts_with(pat)`. -/
def strStartsWith (s pat : String) : Bool :=
  startsWithChars pat.data s.data

/-- Remove leading and trailing whitespace from a character list. -/
def trimChars (l : List Char) : List Char :=
  ((l.dropWhile Char.isWhitespace).reverse.dropWhile Char.isWhitespace).reverse

/-- `str::trim`. -/
def rustTrim (s : String) : String :=
  String.mk (trimChars s.data)

/-- `str::to_lowercase` (ASCII subset: `Char.toLower` maps `A`..`Z` down
by 32 and fixes every other character). -/
def rustLower (s : String) : String :=
  String.mk (s.data.map Char.toLower)

/-- `s.len()` — the UTF-8 byte length of a Rust `&str`. -/
def rustLen (s : String) : Nat :=
  s.utf8ByteSize

/-- `credentials.splitn(2, ':')` succeeding with two parts: split at the
first colon, `none` when the string has no colon (the `parts.len() == 2`
check fails in that case). -/
def splitFirstColon : List Char → Option (List Char × List Char)
  | [] => none
  | c :: cs =>
      if c = ':' then some ([], cs)
      else (splitFirstColon cs).map (fun p => (c :: p.1, p.2))

/-! The handlers.  Each embeds the corresponding `async fn` of src/main.rs;
response-payload construction that the spec declares out of scope (echo
bodies, HTML/XML/SVG documents, stream JSON lines, UUID generation) is
elided to a bare 200 response, while every metrics effect, guardrail
check, status code, `location` header and rejection body is kept. -/

/-- `const MAX_REDIRECTS: u32 = 10`. -/
def MAX_REDIRECTS : Nat := 10

/-- `handle_redirect` (`/redirect/:n`). -/
def handle_redirect (state : Metrics) (n : Nat) : Response × Metrics :=
  let m := (state.increment_total).record_endpoint ("/redirect/" ++ toString n)
  if n > MAX_REDIRECTS then
    ({ status := 400
       body := [("error", .s "Too many redirects"),
                ("max_allowed", .n MAX_REDIRECTS),
                ("requested", .n n),
                ("message", .s ("Maximum " ++ toString MAX_REDIRECTS ++ " redirects allowed"))] },
     (m.increment_redirects_blocked).increment_failed)
  else if n ≤ 1 then
    ({ status := 200, location := some "/get" }, m.increment_success)
  else
    ({ status := 302, location := some ("/redirect/" ++ toString (n - 1)) },
     m.increment_success)

/-- `handle_absolute_redirect` (`/absolute-redirect/:n`). -/
def handle_absolute_redirect (state : Metrics) (n : Nat) : Response × Metrics :=
  let m := (state.increment_total).record_endpoint ("/absolute-redirect/" ++ toString n)
  if n > MAX_REDIRECTS then
    ({ status := 400
       body := [("error", .s "Too many redirects"),
                ("max_allowed", .n MAX_REDIRECTS),
                ("requested", .n n),
                ("message", .s ("Maximum " ++ toString MAX_REDIRECTS ++ " redirects allowed"))] },
     (m.increment_redirects_blocked).increment_failed)
  else if n ≤ 1 then
    ({ status := 200, location := some "https://rustjin.blackcerb.com.br/get" },
     m.increment_success)
  else
    ({ status := 302
       location := some ("https://rustjin.blackcerb.com.br/absolute-redirect/" ++ toString (n - 1)) },
     m.increment_success)

/-- The `dangerous_protocols` deny list of `handle_redirect_to`. -/
def dangerous_protocols : List String :=
  ["javascript:", "data:", "file:", "vbscript:"]

/-- `handle_redirect_to` (`/redirect-to?url=...`). -/
def handle_redirect_to (state : Metrics) (url : String) : Response × Metrics :=
  let m := (state.increment_total).record_endpoint "/redirect-to"
  let u := rustTrim url
  let url_lower := rustLower u
  if dangerous_protocols.any (fun protocol => strStartsWith url_lower protocol) then
    ({ status := 400
       body := [("error", .s "Invalid protocol"),
                ("message", .s "Protocol not allowed for security reasons")] },
     (m.increment_dangerous_urls).increment_failed)
  else if rustLen u > 2048 then
    ({ status := 400
       body := [("error", .s "URL too long"),
                ("max_length", .n 2048),
                ("message", .s "URL exceeds maximum allowed length")] },
     m.increment_failed)
  else
    let final_url :=
      if !(strStartsWith u "http://") && !(strStartsWith u "https://") then
        "http://" ++ u
      else u
    ({ status := 302, location := some final_url }, m.increment_success)

/-- `const MAX_DELAY: u64 = 10` (local to `handle_delay`). -/
def MAX_DELAY : Nat := 10

/-- `handle_delay` (`/delay/:seconds`).  The allowed branch performs
`tokio::time::sleep(Duration::from_secs(seconds))` before responding,
recorded as `sleptSeconds`. -/
def handle_delay (state : Metrics) (seconds : Nat) : Response × Metrics :=
  let m := (state.increment_total).record_endpoint ("/delay/" ++ toString seconds)
  if seconds > MAX_DELAY then
    ({ status := 400
       body := [("error", .s "Delay too long"),
                ("max_delay", .n MAX_DELAY),
                ("requested", .n seconds),
                ("message", .s ("Maximum delay is " ++ toString MAX_DELAY ++ " seconds"))] },
     (m.increment_delays_blocked).increment_failed)
  else
    ({ status := 200
       body := [("delay", .n seconds),
                ("message", .s ("Delayed for " ++ toString seconds ++ " seconds"))]
       sleptSeconds := seconds },
     m.increment_success)

/-- `const MAX_BYTES: usize = 100_000` (local to `handle_bytes`). -/
def MAX_BYTES : Nat := 100000

/-- `handle_bytes` (`/bytes/:n`): the allowed branch returns
`(0..n).map(|i| (i % 256) as u8)`. -/
def handle_bytes (state : Metrics) (n : Nat) : Response × Metrics :=
  let m := (state.increment_total).record_endpoint ("/bytes/" ++ toString n)
  if n > MAX_BYTES then
    ({ status := 400
       body := [("error", .s "Too many bytes requested"),
                ("max_bytes", .n MAX_BYTES),
                ("requested", .n n),
                ("message", .s ("Maximum " ++ toString MAX_BYTES ++ " bytes allowed"))] },
     (m.increment_bytes_blocked).increment_failed)
  else
    ({ status := 200, rawBytes := (List.range n).map (fun i => i % 256) },
     m.increment_success)

/-- `const MAX_LINES: usize = 100` (local to `handle_stream`). -/
def MAX_LINES : Nat := 100

/-- `handle_stream` (`/stream/:n`); the allowed branch's JSON-lines payload
is out-of-scope boilerplate and is elided. -/
def handle_stream (state : Metrics) (n : Nat) : Response × Metrics :=
  let m := (state.increment_total).record_endpoint ("/stream/" ++ toString n)
  if n > MAX_LINES then
    ({ status := 400
       body := [("error", .s "Too many lines requested"),
                ("max_lines", .n MAX_LINES),
                ("requested", .n n),
                ("message", .s ("Maximum " ++ toString MAX_LINES ++ " lines allowed"))] },
     m.increment_failed)
  else
    ({ status := 200 }, m.increment_success)

/-- `StatusCode::from_u16(code).unwrap_or(StatusCode::OK)`: the `http`
crate accepts codes in `100..=999`, everything else falls back to 200. -/
def statusFromU16 (code : Nat) : Nat :=
  if 100 ≤ code ∧ code ≤ 999 then code else 200

/-- `StatusCode::is_success()`: `200..=299`. -/
def isSuccessStatus (s : Nat) : Bool :=
  200 ≤ s && s ≤ 299

/-- `handle_status` (`/status/:code`). -/
def handle_status (state : Metrics) (code : Nat) : Response × Metrics :=
  let m := (state.increment_total).record_endpoint ("/status/" ++ toString code)
  let status := statusFromU16 code
  if isSuccessStatus status then
    ({ status := status }, m.increment_success)
  else
    ({ status := status }, m.increment_failed)

/-- `handle_basic_auth` (`/basic-auth/:user/:password`).  `credentials` is
the Authorization header after the external base64 pipeline of the source
(`headers.get("authorization")` present, `Basic ` detected, base64 decode
and UTF-8 conversion succeeded): `none` when any of those steps fails, in
which case control falls through to the failure branch exactly as in the
source. -/
def handle_basic_auth (state : Metrics) (user password : String)
    (credentials : Option String) : Response × Metrics :=
  let m := (state.increment_total).record_endpoint
    ("/basic-auth/" ++ user ++ "/" ++ "***")
  match credentials with
  | some cred =>
      match splitFirstColon cred.data with
      | some parts =>
          if String.mk parts.1 = user ∧ String.mk parts.2 = password then
            ({ status := 200
               body := [("authenticated", .b true), ("user", .s user)] },
             m.increment_success)
          else ({ status := 401 }, m.increment_failed)
      | none => ({ status := 401 }, m.increment_failed)
  | none => ({ status := 401 }, m.increment_failed)

/-- `handle_bearer_auth` (`/bearer`).  `token` is `Some` of the token when
the Authorization header is present and starts with `Bearer `. -/
def handle_bearer_auth (state : Metrics) (token : Option String) :
    Response × Metrics :=
  let m := (state.increment_total).record_endpoint "/bearer"
  match token with
  | some t =>
      ({ status := 200, body := [("authenticated", .b true), ("token", .s t)] },
       m.increment_success)
  | none => ({ status := 401 }, m.increment_failed)

/-- `handle_metrics` (`/metrics`): count the request, snapshot, then mark
success — the snapshot is taken before `increment_success`. -/
def handle_metrics (state : Metrics) : MetricsResponse × Metrics :=
  let m := (state.increment_total).record_endpoint "/metrics"
  let stats := m.get_stats
  (stats, m.increment_success)

/-- `handle_base64_decode` (`/base64/:value`).  `decoded` is the result of
the external base64 crate followed by `String::from_utf8`: `none` for a
base64 error, `some none` for invalid UTF-8, `some (some text)` on
success. -/
def handle_base64_decode (state : Metrics) (decoded : Option (Option String)) :
    Response × Metrics :=
  let m := (state.increment_total).record_endpoint "/base64/decode"
  match decoded with
  | some (some text) => ({ status := 200, textBody := some text }, m.increment_success)
  | some none =>
      ({ status := 400, textBody := some "Invalid UTF-8" }, m.increment_failed)
  | none =>
      ({ status := 400, textBody := some "Invalid base64" }, m.increment_failed)

/-- Common shape of the unguarded echo/payload handlers (`/get`, `/post`,
`/headers`, `/json`, ...): count, record the route's key, succeed. -/
def simpleSuccessHandler (state : Metrics) (key : String) : Response × Metrics :=
  (({ status := 200 } : Response),
   ((state.increment_total).record_endpoint key).increment_success)

/-- `handle_get` (`/get`). -/
def handle_get (state : Metrics) : Response × Metrics :=
  simpleSuccessHandler state "/get"

/-- `handle_post` (`/post`). -/
def handle_post (state : Metrics) : Response × Metrics :=
  simpleSuccessHandler state "/post"

/-- `handle_put` (`/put`). -/
def handle_put (state : Metrics) : Response × Metrics :=
  simpleSuccessHandler state "/put"

/-- `handle_patch` (`/patch`). -/
def handle_patch (state : Metrics) : Response × Metrics :=
  simpleSuccessHandler state "/patch"

/-- `handle_delete` (`/delete`). -/
def handle_delete (state : Metrics) : Response × Metrics :=
  simpleSuccessHandler state "/delete"

/-- `handle_headers` (`/headers`). -/
def handle_headers (state : Metrics) : Response × Metrics :=
  simpleSuccessHandler state "/headers"

/-- `handle_ip` (`/ip`). -/
def handle_ip (state : Metrics) : Response × Metrics :=
  simpleSuccessHandler state "/ip"

/-- `handle_user_agent` (`/user-agent`). -/
def handle_user_agent (state : Metrics) : Response × Metrics :=
  simpleSuccessHandler state "/user-agent"

/-- `handle_cookies_get` (`/cookies`). -/
def handle_cookies_get (state : Metrics) : Response × Metrics :=
  simpleSuccessHandler state "/cookies"

/-- `handle_cookies_set` (`/cookies/set`). -/
def handle_cookies_set (state : Metrics) : Response × Metrics :=
  simpleSuccessHandler state "/cookies/set"

/-- `handle_cookies_delete` (`/cookies/delete`). -/
def handle_cookies_delete (state : Metrics) : Response × Metrics :=
  simpleSuccessHandler state "/cookies/delete"

/-- `handle_json` (`/json`). -/
def handle_json (state : Metrics) : Response × Metrics :=
  simpleSuccessHandler state "/json"

/-- `handle_html` (`/html`). -/
def handle_html (state : Metrics) : Response × Metrics :=
  simpleSuccessHandler state "/html"

/-- `handle_xml` (`/xml`). -/
def handle_xml (state : Metrics) : Response × Metrics :=
  simpleSuccessHandler state "/xml"

/-- `handle_image` (`/image`). -/
def handle_image (state : Metrics) : Response × Metrics :=
  simpleSuccessHandler state "/image"

/-- `handle_image_format` (`/image/:format`): ignores its format argument
and delegates to `handle_image` (so the recorded key is `/image`). -/
def handle_image_format (state : Metrics) (_format : String) : Response × Metrics :=
  handle_image state

/-- `handle_uuid` (`/uuid`). -/
def handle_uuid (state : Metrics) : Response × Metrics :=
  simpleSuccessHandler state "/uuid"

/-- `handle_home` (`/`). -/
def handle_home (state : Metrics) : Response × Metrics :=
  simpleSuccessHandler state "/"

/-- `handle_logo` (`/logo.png`). -/
def handle_logo (state : Metrics) : Response × Metrics :=
  simpleSuccessHandler state "/logo.png"

/-- `handle_health` (`/health`); the uptime payload is out of scope. -/
def handle_health (state : Metrics) : Response × Metrics :=
  simpleSuccessHandler state "/health"

/-- `handle_anything` (`/anything`, `/anything/*path`). -/
def handle_anything (state : Metrics) : Response × Metrics :=
  simpleSuccessHandler state "/anything"

/-! Interleaving model of the concurrent counter updates.  Each counter
mutation in the source is a single `fetch_add(1, Ordering::Relaxed)` on an
`AtomicU64` (and each `record_endpoint` holds the map's mutex for its whole
read-modify-write), so every metrics update is one indivisible action; a
concurrent execution of any set of requests is therefore some interleaving
of those atomic actions, i.e. an arbitrary list of actions applied in
sequence. -/

/-- One atomic metrics action. -/
inductive MetricAction where
  | incrTotal
  | incrSuccess
  | incrFailed
  | incrRedirectsBlocked
  | incrDelaysBlocked
  | incrBytesBlocked
  | incrDangerousUrls
  | record (key : String)
deriving DecidableEq, Repr

/-- Apply one atomic action to the shared metrics state. -/
def applyAction (m : Metrics) : MetricAction → Metrics
  | .incrTotal => m.increment_total
  | .incrSuccess => m.increment_success
  | .incrFailed => m.increment_failed
  | .incrRedirectsBlocked => m.increment_redirects_blocked
  | .incrDelaysBlocked => m.increment_delays_blocked
  | .incrBytesBlocked => m.increment_bytes_blocked
  | .incrDangerousUrls => m.increment_dangerous_urls
  | .record key => m.record_endpoint key

/-- Run one interleaving (schedule) of atomic actions. -/
def runSchedule (m : Metrics) (sched : List MetricAction) : Metrics :=
  sched.foldl applyAction m

/-! Helper lemmas about the endpoint map and per-request accounting. -/

theorem countOf_recordKey_self (l : List (String × Nat)) (k : String) :
    countOf (recordKey l k) k = countOf l k + 1 := by
  induction l with
  | nil => simp [recordKey, countOf]
  | cons hd tl ih =>
      obtain ⟨k', c⟩ := hd
      by_cases h : k' = k
      · simp [recordKey, countOf, h]
      · simp [recordKey, countOf, h, ih]

theorem countOf_recordKey_ne (l : List (String × Nat)) (k k' : String)
    (h : k' ≠ k) : countOf (recordKey l k) k' = countOf l k' := by
  have h' : k ≠ k' := Ne.symm h
  induction l with
  | nil => simp [recordKey, countOf, h']
  | cons hd tl ih =>
      obtain ⟨a, c⟩ := hd
      by_cases ha : a = k
      · subst ha
        simp [recordKey, countOf, h']
      · simp [recordKey, countOf, ha, ih]

/-- Per-request accounting contract (§4.4 of the spec): the handler run
from state `m` to state `m'` with endpoint key `key` incremented
`total_requests` exactly once, bumped exactly the entry for `key` in the
endpoint map, and performed exactly one of the success/failure increments
(their sum grows by exactly one, and one of the two grew by one). -/
def perRequestAccounting (m m' : Metrics) (key : String) : Prop :=
  m'.total_requests = m.total_requests + 1 ∧
  countOf m'.endpoint_stats key = countOf m.endpoint_stats key + 1 ∧
  (∀ k, k ≠ key → countOf m'.endpoint_stats k = countOf m.endpoint_stats k) ∧
  m'.successful_requests + m'.failed_requests
    = m.successful_requests + m.failed_requests + 1 ∧
  (m'.successful_requests = m.successful_requests + 1 ∨
   m'.failed_requests = m.failed_requests + 1)

theorem pra_entry_success (m : Metrics) (key : String) :
    perRequestAccounting m (((m.increment_total).record_endpoint key).increment_success) key := by
  refine ⟨rfl, ?_, ?_, ?_, Or.inl rfl⟩
  · simpa [Metrics.increment_total, Metrics.record_endpoint, Metrics.increment_success]
      using countOf_recordKey_self m.endpoint_stats key
  · intro k hk
    simpa [Metrics.increment_total, Metrics.record_endpoint, Metrics.increment_success]
      using countOf_recordKey_ne m.endpoint_stats key k hk
  · simp [Metrics.increment_total, Metrics.record_endpoint, Metrics.increment_success]
    omega

theorem pra_entry_failed (m : Metrics) (key : String) :
    perRequestAccounting m (((m.increment_total).record_endpoint key).increment_failed) key := by
  refine ⟨rfl, ?_, ?_, ?_, Or.inr rfl⟩
  · simpa [Metrics.increment_total, Metrics.record_endpoint, Metrics.increment_failed]
      using countOf_recordKey_self m.endpoint_stats key
  · intro k hk
    simpa [Metrics.increment_total, Metrics.record_endpoint, Metrics.increment_failed]
      using countOf_recordKey_ne m.endpoint_stats key k hk
  · simp [Metrics.increment_total, Metrics.record_endpoint, Metrics.increment_failed]
    omega

theorem pra_entry_blocked_failed (m : Metrics) (key : String)
    (blocker : Metrics → Metrics)
    (hTot : ∀ x, (blocker x).total_requests = x.total_requests)
    (hSucc : ∀ x, (blocker x).successful_requests = x.successful_requests)
    (hFail : ∀ x, (blocker x).failed_requests = x.failed_requests)
    (hStats : ∀ x, (blocker x).endpoint_stats = x.endpoint_stats) :
    perRequestAccounting m
      ((blocker ((m.increment_total).record_endpoint key)).increment_failed) key := by
  refine ⟨?_, ?_, ?_, ?_, Or.inr ?_⟩
  · simp [Metrics.increment_failed, hTot, Metrics.record_endpoint, Metrics.increment_total]
  · simpa [Metrics.increment_failed, hStats, Metrics.record_endpoint, Metrics.increment_total]
      using countOf_recordKey_self m.endpoint_stats key
  · intro k hk
    simpa [Metrics.increment_failed, hStats, Metrics.record_endpoint, Metrics.increment_total]
      using countOf_recordKey_ne m.endpoint_stats key k hk
  · simp [Metrics.increment_failed, hSucc, hFail, Metrics.record_endpoint,
      Metrics.increment_total]
    omega
  · simp [Metrics.increment_failed, hFail, Metrics.record_endpoint, Metrics.increment_total]

theorem pra_entry_redirects_blocked_failed (m : Metrics) (key : String) :
    perRequestAccounting m
      ((((m.increment_total).record_endpoint key).increment_redirects_blocked).increment_failed)
      key :=
  pra_entry_blocked_failed m key Metrics.increment_redirects_blocked
    (fun _ => rfl) (fun _ => rfl) (fun _ => rfl) (fun _ => rfl)

theorem pra_entry_delays_blocked_failed (m : Metrics) (key : String) :
    perRequestAccounting m
      ((((m.increment_total).record_endpoint key).increment_delays_blocked).increment_failed)
      key :=
  pra_entry_blocked_failed m key Metrics.increment_delays_blocked
    (fun _ => rfl) (fun _ => rfl) (fun _ => rfl) (fun _ => rfl)

theorem pra_entry_bytes_blocked_failed (m : Metrics) (key : String) :
    perRequestAccounting m
      ((((m.increment_total).record_endpoint key).increment_bytes_blocked).increment_failed)
      key :=
  pra_entry_blocked_failed m key Metrics.increment_bytes_blocked
    (fun _ => rfl) (fun _ => rfl) (fun _ => rfl) (fun _ => rfl)

theorem pra_entry_dangerous_blocked_failed (m : Metrics) (key : String) :
    perRequestAccounting m
      ((((m.increment_total).record_endpoint key).increment_dangerous_urls).increment_failed)
      key :=
  pra_entry_blocked_failed m key Metrics.increment_dangerous_urls
    (fun _ => rfl) (fun _ => rfl) (fun _ => rfl) (fun _ => rfl)

/-- Number of `incrTotal` actions in a schedule: the number of concurrent
`increment(total_requests)` calls it interleaves. -/
def countIncrTotal (sched : List MetricAction) : Nat :=
  sched.countP (fun a => match a with | .incrTotal => true | _ => false)

/-- Claim C6: for every handler execution that runs to completion,
`record_endpoint` and the `total_requests` increment are each performed
exactly once, unconditionally (in every branch, before and independent of
any guardrail outcome), and at the terminal point exactly one of the
`successful_requests` / `failed_requests` increments is performed — never
both, never neither.  Stated as `perRequestAccounting` for every embedded
handler of the service. -/
theorem c6_request_outcome_recorder :
    (∀ m n, perRequestAccounting m (handle_redirect m n).2 ("/redirect/" ++ toString n)) ∧
    (∀ m n, perRequestAccounting m (handle_absolute_redirect m n).2
      ("/absolute-redirect/" ++ toString n)) ∧
    (∀ m url, perRequestAccounting m (handle_redirect_to m url).2 "/redirect-to") ∧
    (∀ m s, perRequestAccounting m (handle_delay m s).2 ("/delay/" ++ toString s)) ∧
    (∀ m b, perRequestAccounting m (handle_bytes m b).2 ("/bytes/" ++ toString b)) ∧
    (∀ m n, perRequestAccounting m (handle_stream m n).2 ("/stream/" ++ toString n)) ∧
    (∀ m c, perRequestAccounting m (handle_status m c).2 ("/status/" ++ toString c)) ∧
    (∀ m u p cred, perRequestAccounting m (handle_basic_auth m u p cred).2
      ("/basic-auth/" ++ u ++ "/" ++ "***")) ∧
    (∀ m tok, perRequestAccounting m (handle_bearer_auth m tok).2 "/bearer") ∧
    (∀ m, perRequestAccounting m (handle_metrics m).2 "/metrics") ∧
    (∀ m dec, perRequestAccounting m (handle_base64_decode m dec).2 "/base64/decode") ∧
    (∀ m fmt, perRequestAccounting m (handle_image_format m fmt).2 "/image") ∧
    (∀ m key, perRequestAccounting m (simpleSuccessHandler m key).2 key) ∧
    (∀ m, perRequestAccounting m (handle_get m).2 "/get") ∧
    (∀ m, perRequestAccounting m (handle_post m).2 "/post") ∧
    (∀ m, perRequestAccounting m (handle_put m).2 "/put") ∧
    (∀ m, perRequestAccounting m (handle_patch m).2 "/patch") ∧
    (∀ m, perRequestAccounting m (handle_delete m).2 "/delete") ∧
    (∀ m, perRequestAccounting m (handle_headers m).2 "/headers") ∧
    (∀ m, perRequestAccounting m (handle_ip m).2 "/ip") ∧
    (∀ m, perRequestAccounting m (handle_user_agent m).2 "/user-agent") ∧
    (∀ m, perRequestAccounting m (handle_cookies_get m).2 "/cookies") ∧
    (∀ m, perRequestAccounting m (handle_cookies_set m).2 "/cookies/set") ∧
    (∀ m, perRequestAccounting m (handle_cookies_delete m).2 "/cookies/delete") ∧
    (∀ m, perRequestAccounting m (handle_json m).2 "/json") ∧
    (∀ m, perRequestAccounting m (handle_html m).2 "/html") ∧
    (∀ m, perRequestAccounting m (handle_xml m).2 "/xml") ∧
    (∀ m, perRequestAccounting m (handle_image m).2 "/image") ∧
    (∀ m, perRequestAccounting m (handle_uuid m).2 "/uuid") ∧
    (∀ m, perRequestAccounting m (handle_home m).2 "/") ∧
    (∀ m, perRequestAccounting m (handle_logo m).2 "/logo.png") ∧
    (∀ m, perRequestAccounting m (handle_health m).2 "/health") ∧
    (∀ m, perRequestAccounting m (handle_anything m).2 "/anything") := by
  refine ⟨?_, ?_, ?_, ?_, ?_, ?_, ?_, ?_, ?_, ?_, ?_, ?_, ?_, ?_, ?_, ?_, ?_, ?_,
    ?_, ?_, ?_, ?_, ?_, ?_, ?_, ?_, ?_, ?_, ?_, ?_, ?_, ?_, ?_⟩
  · intro m n
    simp only [handle_redirect]
    split
    · exact pra_entry_redirects_blocked_failed m _
    · split
      · exact pra_entry_success m _
      · exact pra_entry_success m _
  · intro m n
    simp only [handle_absolute_redirect]
    split
    · exact pra_entry_redirects_blocked_failed m _
    · split
      · exact pra_entry_success m _
      · exact pra_entry_success m _
  · intro m url
    simp only [handle_redirect_to]
    split
    · exact pra_entry_dangerous_blocked_failed m _
    · split
      · exact pra_entry_failed m _
      · exact pra_entry_success m _
  · intro m s
    simp only [handle_delay]
    split
    · exact pra_entry_delays_blocked_failed m _
    · exact pra_entry_success m _
  · intro m b
    simp only [handle_bytes]
    split
    · exact pra_entry_bytes_blocked_failed m _
    · exact pra_entry_success m _
  · intro m n
    simp only [handle_stream]
    split
    · exact pra_entry_failed m _
    · exact pra_entry_success m _
  · intro m c
    simp only [handle_status]
    split
    · exact pra_entry_success m _
    · exact pra_entry_failed m _
  · intro m u p cred
    simp only [handle_basic_auth]
    match cred with
    | some cr =>
        simp only []
        match splitFirstColon cr.data with
        | some parts =>
            simp only []
            split
            · exact pra_entry_success m _
            · exact pra_entry_failed m _
        | none => exact pra_entry_failed m _
    | none => exact pra_entry_failed m _
  · intro m tok
    match tok with
    | some t => exact pra_entry_success m _
    | none => exact pra_entry_failed m _
  · intro m
    exact pra_entry_success m _
  · intro m dec
    match dec with
    | some (some t) => exact pra_entry_success m _
    | some none => exact pra_entry_failed m _
    | none => exact pra_entry_failed m _
  · intro m fmt
    exact pra_entry_success m _
  · intro m key
    exact pra_entry_success m key
  all_goals intro m
  all_goals exact pra_entry_success m _

/-- Claim C8 counterexample: two basic-auth requests that differ only in
the caller-supplied credentials (user `alice` vs user `bob`, same
password) record different endpoint keys — the username is embedded in
the endpoint-frequency identifier. -/
theorem c8_counterexample :
    (handle_basic_auth Metrics.new "alice" "pw" none).2.endpoint_stats
      ≠ (handle_basic_auth Metrics.new "bob" "pw" none).2.endpoint_stats := by
  decide

theorem basic_auth_recorded_stats (m : Metrics) (user password : String)
    (cred : Option String) :
    (handle_basic_auth m user password cred).2.endpoint_stats
      = recordKey m.endpoint_stats ("/basic-auth/" ++ user ++ "/" ++ "***") := by
  simp only [handle_basic_auth]
  rcases cred with _ | cr
  · rfl
  · rcases hsp : splitFirstColon cr.data with _ | parts
    · simp only [hsp]
      rfl
    · simp only [hsp]
      split <;> rfl

/-- Claim C8 (amended): the endpoint key recorded for a basic-auth request
is `/basic-auth/<user>/***`: the password (the sensitive parameter) is
redacted and the key is independent of it — two runs differing only in
the password record the same key — but the username is embedded. -/
theorem c8_basic_auth_key_redaction (m : Metrics) (user p1 p2 : String)
    (cred : Option String) :
    (handle_basic_auth m user p1 cred).2.endpoint_stats
      = recordKey m.endpoint_stats ("/basic-auth/" ++ user ++ "/" ++ "***") ∧
    (handle_basic_auth m user p1 cred).2.endpoint_stats
      = (handle_basic_auth m user p2 cred).2.endpoint_stats :=
  ⟨basic_auth_recorded_stats m user p1 cred,
   (basic_auth_recorded_stats m user p1 cred).trans
     (basic_auth_recorded_stats m user p2 cred).symm⟩

/-- Claim C9: each counter mutation is a single atomic
`fetch_add(1, Relaxed)`, so a concurrent execution is an arbitrary
interleaving of atomic actions; under every such interleaving no
`increment(total_requests)` is ever lost: the final value of
`total_requests` is the initial value plus the number of
`incrTotal` actions in the schedule — in particular, from the fresh
`Metrics::new()` state, any schedule of `N` concurrent
`increment(total_requests)` calls (interleaved with any other counter
traffic) leaves the counter at exactly `N`. -/
theorem c9_no_lost_updates :
    (∀ (m : Metrics) (sched : List MetricAction),
      (runSchedule m sched).total_requests = m.total_requests + countIncrTotal sched) ∧
    (∀ sched : List MetricAction,
      (∀ a ∈ sched, a = MetricAction.incrTotal) →
      (runSchedule Metrics.new sched).total_requests = sched.length) := by
  have key : ∀ (sched : List MetricAction) (m : Metrics),
      (runSchedule m sched).total_requests = m.total_requests + countIncrTotal sched := by
    intro sched
    induction sched with
    | nil => intro m; simp [runSchedule, countIncrTotal]
    | cons a rest ih =>
        intro m
        have h1 : runSchedule m (a :: rest) = runSchedule (applyAction m a) rest := rfl
        rw [h1, ih]
        cases a <;>
          · simp [countIncrTotal, List.countP_cons, applyAction,
              Metrics.increment_total, Metrics.increment_success, Metrics.increment_failed,
              Metrics.increment_redirects_blocked, Metrics.increment_delays_blocked,
              Metrics.increment_bytes_blocked, Metrics.increment_dangerous_urls,
              Metrics.record_endpoint]
            try omega
  refine ⟨fun m sched => key sched m, fun sched hall => ?_⟩
  have hcount : ∀ l : List MetricAction, (∀ a ∈ l, a = MetricAction.incrTotal) →
      countIncrTotal l = l.length := by
    intro l
    induction l with
    | nil => intro _; simp [countIncrTotal]
    | cons a rest ih =>
        intro hl
        have ha : a = MetricAction.incrTotal := hl a (by simp)
        have hr := ih (fun x hx => hl x (by simp [hx]))
        subst ha
        simp only [countIncrTotal, List.countP_cons, List.length_cons] at hr ⊢
        rw [hr]
        simp
  rw [key sched Metrics.new, hcount sched hall]
  simp [Metrics.new]

/-- Claim C10: the metrics endpoint counts its own request before taking
the snapshot it returns: the served snapshot shows `total_requests` at
least 1 (the entry increment included), contains the `/metrics` key with
count at least 1, and does not yet include the current request in
`successful_requests` — the success increment happens only after the
snapshot is taken. -/
theorem c10_metrics_snapshot_self_count (m : Metrics) :
    (handle_metrics m).1.total_requests = m.total_requests + 1 ∧
    1 ≤ (handle_metrics m).1.total_requests ∧
    countOf (handle_metrics m).1.endpoint_stats "/metrics"
      = countOf m.endpoint_stats "/metrics" + 1 ∧
    1 ≤ countOf (handle_metrics m).1.endpoint_stats "/metrics" ∧
    (handle_metrics m).1.successful_requests = m.successful_requests ∧
    (handle_metrics m).2.successful_requests = m.successful_requests + 1 := by
  refine ⟨rfl, ?_, ?_, ?_, rfl, rfl⟩
  · simp [handle_metrics, Metrics.get_stats, Metrics.increment_total,
      Metrics.record_endpoint, Metrics.increment_success]
  · simpa [handle_metrics, Metrics.get_stats, Metrics.increment_total,
      Metrics.record_endpoint, Metrics.increment_success]
      using countOf_recordKey_self m.endpoint_stats "/metrics"
  · have := countOf_recordKey_self m.endpoint_stats "/metrics"
    simp [handle_metrics, Metrics.get_stats, Metrics.increment_total,
      Metrics.record_endpoint, Metrics.increment_success, this]

/-- A rejected request on a redirect-depth endpoint `h`: 400-class status,
`redirects_blocked` and `failed_requests` each up by exactly one,
`successful_requests` untouched, and `total_requests` up by exactly the
one entry increment (the rejection itself adds nothing to it). -/
def redirectRejected (h : Metrics → Nat → Response × Metrics)
    (m : Metrics) (d : Nat) : Prop :=
  (h m d).1.status = 400 ∧
  (h m d).2.redirects_blocked = m.redirects_blocked + 1 ∧
  (h m d).2.failed_requests = m.failed_requests + 1 ∧
  (h m d).2.successful_requests = m.successful_requests ∧
  (h m d).2.total_requests = m.total_requests + 1

/-- An allowed request on a redirect-depth endpoint `h`: the handler marks
success, blocks nothing, and produces a single-hop response — a `302` to
the depth `d - 1` resource when `2 ≤ d`, and the terminal response
pointing at the canonical base resource when `d ≤ 1`.  The handler emits
exactly this one response and never follows the chain itself. -/
def redirectAllowed (h : Metrics → Nat → Response × Metrics)
    (hopTarget : Nat → String) (terminalLoc : String)
    (m : Metrics) (d : Nat) : Prop :=
  (h m d).2.successful_requests = m.successful_requests + 1 ∧
  (h m d).2.failed_requests = m.failed_requests ∧
  (h m d).2.redirects_blocked = m.redirects_blocked ∧
  (h m d).2.total_requests = m.total_requests + 1 ∧
  (d ≤ 1 → (h m d).1.status = 200 ∧ (h m d).1.location = some terminalLoc) ∧
  (2 ≤ d → (h m d).1.status = 302 ∧ (h m d).1.location = some (hopTarget (d - 1)))

/-- Claim C1: on `/redirect/:n` and `/absolute-redirect/:n`, a depth
`d > 10` is rejected with a 400 response, incrementing
`redirects_blocked` and `failed_requests` by exactly one each
(`total_requests` only gets its usual entry increment), while
`1 ≤ d ≤ 10` is allowed and produces a single-hop redirect toward depth
`d - 1`, terminal at `d ≤ 1` where the location is the canonical base
resource; the handler never traverses the chain itself. -/
theorem c1_redirect_depth_policy (m : Metrics) (d : Nat) :
    (d > 10 →
      redirectRejected handle_redirect m d ∧
      redirectRejected handle_absolute_redirect m d) ∧
    (1 ≤ d → d ≤ 10 →
      redirectAllowed handle_redirect
        (fun k => "/redirect/" ++ toString k) "/get" m d ∧
      redirectAllowed handle_absolute_redirect
        (fun k => "https://rustjin.blackcerb.com.br/absolute-redirect/" ++ toString k)
        "https://rustjin.blackcerb.com.br/get" m d) := by
  constructor
  · intro hd
    have hgt : d > MAX_REDIRECTS := hd
    constructor
    · refine ⟨?_, ?_, ?_, ?_, ?_⟩ <;>
        simp [handle_redirect, hgt, Metrics.increment_total, Metrics.record_endpoint,
          Metrics.increment_redirects_blocked, Metrics.increment_failed]
    · refine ⟨?_, ?_, ?_, ?_, ?_⟩ <;>
        simp [handle_absolute_redirect, hgt, Metrics.increment_total, Metrics.record_endpoint,
          Metrics.increment_redirects_blocked, Metrics.increment_failed]
  · intro h1 h10
    have hng : ¬ d > MAX_REDIRECTS := by simp [MAX_REDIRECTS]; omega
    by_cases hle : d ≤ 1
    · constructor
      · refine ⟨?_, ?_, ?_, ?_, fun _ => ⟨?_, ?_⟩, fun h2 => absurd h2 (by omega)⟩ <;>
          simp [handle_redirect, hng, hle, Metrics.increment_total, Metrics.record_endpoint,
            Metrics.increment_success]
      · refine ⟨?_, ?_, ?_, ?_, fun _ => ⟨?_, ?_⟩, fun h2 => absurd h2 (by omega)⟩ <;>
          simp [handle_absolute_redirect, hng, hle, Metrics.increment_total,
            Metrics.record_endpoint, Metrics.increment_success]
    · constructor
      · refine ⟨?_, ?_, ?_, ?_, fun hc => absurd hc hle, fun _ => ⟨?_, ?_⟩⟩ <;>
          simp [handle_redirect, hng, hle, Metrics.increment_total, Metrics.record_endpoint,
            Metrics.increment_success]
      · refine ⟨?_, ?_, ?_, ?_, fun hc => absurd hc hle, fun _ => ⟨?_, ?_⟩⟩ <;>
          simp [handle_absolute_redirect, hng, hle, Metrics.increment_total,
            Metrics.record_endpoint, Metrics.increment_success]

/-- Witness for C1 at depth 11 (rejected) and depths 1 and 5 (allowed). -/
theorem c1_redirect_depth_policy_witness :
    (redirectRejected handle_redirect Metrics.new 11 ∧
     redirectRejected handle_absolute_redirect Metrics.new 11) ∧
    redirectAllowed handle_redirect
      (fun k => "/redirect/" ++ toString k) "/get" Metrics.new 1 ∧
    redirectAllowed handle_redirect
      (fun k => "/redirect/" ++ toString k) "/get" Metrics.new 5 ∧
    redirectAllowed handle_absolute_redirect
      (fun k => "https://rustjin.blackcerb.com.br/absolute-redirect/" ++ toString k)
      "https://rustjin.blackcerb.com.br/get" Metrics.new 5 :=
  ⟨(c1_redirect_depth_policy Metrics.new 11).1 (by decide),
   ((c1_redirect_depth_policy Metrics.new 1).2 (by decide) (by decide)).1,
   ((c1_redirect_depth_policy Metrics.new 5).2 (by decide) (by decide)).1,
   ((c1_redirect_depth_policy Metrics.new 5).2 (by decide) (by decide)).2⟩

/-- Claim C2: on `/delay/:seconds`, a delay `s > 10` is rejected
immediately with no suspension (`sleptSeconds = 0`), incrementing
`delays_blocked` and `failed_requests` by one each; `s ≤ 10` is allowed,
the handler suspends for (at least) `s` seconds and then responds
successfully. -/
theorem c2_delay_policy (m : Metrics) (s : Nat) :
    (s > 10 →
      (handle_delay m s).1.status = 400 ∧
      (handle_delay m s).1.sleptSeconds = 0 ∧
      (handle_delay m s).2.delays_blocked = m.delays_blocked + 1 ∧
      (handle_delay m s).2.failed_requests = m.failed_requests + 1 ∧
      (handle_delay m s).2.successful_requests = m.successful_requests) ∧
    (s ≤ 10 →
      (handle_delay m s).1.status = 200 ∧
      (handle_delay m s).1.sleptSeconds = s ∧
      s ≤ (handle_delay m s).1.sleptSeconds ∧
      (handle_delay m s).2.successful_requests = m.successful_requests + 1 ∧
      (handle_delay m s).2.failed_requests = m.failed_requests) := by
  constructor
  · intro hs
    have hgt : s > MAX_DELAY := hs
    refine ⟨?_, ?_, ?_, ?_, ?_⟩ <;>
      simp [handle_delay, hgt, Metrics.increment_total, Metrics.record_endpoint,
        Metrics.increment_delays_blocked, Metrics.increment_failed]
  · intro hs
    have hng : ¬ s > MAX_DELAY := by simp [MAX_DELAY]; omega
    refine ⟨?_, ?_, ?_, ?_, ?_⟩ <;>
      simp [handle_delay, hng, Metrics.increment_total, Metrics.record_endpoint,
        Metrics.increment_success]

/-- Witness for C2 at 11 seconds (rejected) and 3 seconds (allowed). -/
theorem c2_delay_policy_witness :
    ((handle_delay Metrics.new 11).1.status = 400 ∧
     (handle_delay Metrics.new 11).1.sleptSeconds = 0 ∧
     (handle_delay Metrics.new 11).2.delays_blocked = Metrics.new.delays_blocked + 1 ∧
     (handle_delay Metrics.new 11).2.failed_requests = Metrics.new.failed_requests + 1 ∧
     (handle_delay Metrics.new 11).2.successful_requests = Metrics.new.successful_requests) ∧
    ((handle_delay Metrics.new 3).1.status = 200 ∧
     (handle_delay Metrics.new 3).1.sleptSeconds = 3 ∧
     3 ≤ (handle_delay Metrics.new 3).1.sleptSeconds ∧
     (handle_delay Metrics.new 3).2.successful_requests = Metrics.new.successful_requests + 1 ∧
     (handle_delay Metrics.new 3).2.failed_requests = Metrics.new.failed_requests) :=
  ⟨(c2_delay_policy Metrics.new 11).1 (by decide),
   (c2_delay_policy Metrics.new 3).2 (by decide)⟩

/-- Claim C3: on `/bytes/:n`, a byte count `b > 100000` is rejected,
incrementing `bytes_blocked` and `failed_requests` by one each; the
boundary request `b = 100000` is allowed and its body is exactly 100000
bytes whose values cycle `0..255` (the byte at index `i` is `i mod 256`). -/
theorem c3_bytes_policy (m : Metrics) (b : Nat) :
    (b > 100000 →
      (handle_bytes m b).1.status = 400 ∧
      (handle_bytes m b).2.bytes_blocked = m.bytes_blocked + 1 ∧
      (handle_bytes m b).2.failed_requests = m.failed_requests + 1 ∧
      (handle_bytes m b).2.successful_requests = m.successful_requests) ∧
    ((handle_bytes m 100000).1.status = 200 ∧
     (handle_bytes m 100000).1.rawBytes.length = 100000 ∧
     (∀ i, i < 100000 → (handle_bytes m 100000).1.rawBytes.getD i 0 = i % 256) ∧
     (handle_bytes m 100000).2.successful_requests = m.successful_requests + 1 ∧
     (handle_bytes m 100000).2.failed_requests = m.failed_requests) := by
  have hng : ¬ (100000 : Nat) > MAX_BYTES := by simp [MAX_BYTES]
  constructor
  · intro hb
    have hgt : b > MAX_BYTES := hb
    refine ⟨?_, ?_, ?_, ?_⟩ <;>
      simp [handle_bytes, hgt, Metrics.increment_total, Metrics.record_endpoint,
        Metrics.increment_bytes_blocked, Metrics.increment_failed]
  · refine ⟨?_, ?_, ?_, ?_, ?_⟩
    · simp [handle_bytes, hng]
    · simp [handle_bytes, hng]
    · intro i hi
      have hlt : i < ((List.range 100000).map (fun j => j % 256)).length := by
        simpa using hi
      simp [handle_bytes, hng, List.getD_eq_getElem _ _ hlt, List.getElem?_range hi]
    · simp [handle_bytes, hng, Metrics.increment_total, Metrics.record_endpoint,
        Metrics.increment_success]
    · simp [handle_bytes, hng, Metrics.increment_total, Metrics.record_endpoint,
        Metrics.increment_success]

/-- Witness for C3 at 100001 bytes (rejected) and the allowed boundary
100000, sampled at index 5. -/
theorem c3_bytes_policy_witness :
    ((handle_bytes Metrics.new 100001).1.status = 400 ∧
     (handle_bytes Metrics.new 100001).2.bytes_blocked = Metrics.new.bytes_blocked + 1 ∧
     (handle_bytes Metrics.new 100001).2.failed_requests = Metrics.new.failed_requests + 1 ∧
     (handle_bytes Metrics.new 100001).2.successful_requests = Metrics.new.successful_requests) ∧
    (handle_bytes Metrics.new 100000).1.rawBytes.length = 100000 ∧
    (handle_bytes Metrics.new 100000).1.rawBytes.getD 5 0 = 5 % 256 :=
  ⟨(c3_bytes_policy Metrics.new 100001).1 (by decide),
   (c3_bytes_policy Metrics.new 100001).2.2.1,
   (c3_bytes_policy Metrics.new 100001).2.2.2.1 5 (by decide)⟩

/-- Claim C4: on `/redirect-to`, any target URL whose trimmed value starts
case-insensitively with one of the deny-listed schemes (`javascript:`,
`data:`, `file:`, `vbscript:`) — in particular every casing of
`javascript:alert(1)` — is rejected with reason `Invalid protocol`,
incrementing `dangerous_urls_blocked` and `failed_requests` by one each;
the schemeless URL `example.com` is allowed and the effective redirect
target becomes `http://example.com`. -/
theorem c4_redirect_to_policy (m : Metrics) (url : String) :
    (dangerous_protocols.any
        (fun protocol => strStartsWith (rustLower (rustTrim url)) protocol) = true →
      (handle_redirect_to m url).1.status = 400 ∧
      ("error", JsonVal.s "Invalid protocol") ∈ (handle_redirect_to m url).1.body ∧
      (handle_redirect_to m url).2.dangerous_urls_blocked = m.dangerous_urls_blocked + 1 ∧
      (handle_redirect_to m url).2.failed_requests = m.failed_requests + 1 ∧
      (handle_redirect_to m url).2.successful_requests = m.successful_requests) ∧
    ((handle_redirect_to m "example.com").1.status = 302 ∧
     (handle_redirect_to m "example.com").1.location = some "http://example.com" ∧
     (handle_redirect_to m "example.com").2.successful_requests = m.successful_requests + 1 ∧
     (handle_redirect_to m "example.com").2.failed_requests = m.failed_requests ∧
     (handle_redirect_to m "example.com").2.dangerous_urls_blocked = m.dangerous_urls_blocked) := by
  constructor
  · intro hdang
    refine ⟨?_, ?_, ?_, ?_, ?_⟩ <;>
      simp [handle_redirect_to, hdang, Metrics.increment_total, Metrics.record_endpoint,
        Metrics.increment_dangerous_urls, Metrics.increment_failed]
  · have htrim : rustTrim "example.com" = "example.com" := by decide
    have hdang : ¬ ∃ x ∈ dangerous_protocols,
        strStartsWith (rustLower "example.com") x = true := by decide
    have hlen : ¬ (2048 < rustLen "example.com") := by decide
    have hsch1 : strStartsWith "example.com" "http://" = false := by decide
    have hsch2 : strStartsWith "example.com" "https://" = false := by decide
    refine ⟨?_, ?_, ?_, ?_, ?_⟩ <;>
      simp [handle_redirect_to, htrim, hdang, hlen, hsch1, hsch2, Metrics.increment_total,
        Metrics.record_endpoint, Metrics.increment_success]

/-- Witness for C4 at the mixed-case URL `JaVaScRiPt:alert(1)`. -/
theorem c4_redirect_to_policy_witness :
    (handle_redirect_to Metrics.new "JaVaScRiPt:alert(1)").1.status = 400 ∧
    ("error", JsonVal.s "Invalid protocol")
      ∈ (handle_redirect_to Metrics.new "JaVaScRiPt:alert(1)").1.body ∧
    (handle_redirect_to Metrics.new "JaVaScRiPt:alert(1)").2.dangerous_urls_blocked
      = Metrics.new.dangerous_urls_blocked + 1 ∧
    (handle_redirect_to Metrics.new "JaVaScRiPt:alert(1)").2.failed_requests
      = Metrics.new.failed_requests + 1 ∧
    (handle_redirect_to Metrics.new "JaVaScRiPt:alert(1)").2.successful_requests
      = Metrics.new.successful_requests :=
  (c4_redirect_to_policy Metrics.new "JaVaScRiPt:alert(1)").1 (by decide)

/-- The body has a field whose value is the natural number `x`. -/
abbrev bodyHasNat (b : JsonBody) (x : Nat) : Prop :=
  ∃ f ∈ b, f.2 = JsonVal.n x

/-- The body has a field whose value is the string `x`. -/
abbrev bodyHasStr (b : JsonBody) (x : String) : Prop :=
  ∃ f ∈ b, f.2 = JsonVal.s x

/-- Whether a JSON value is numeric. -/
def JsonVal.isNum : JsonVal → Bool
  | .n _ => true
  | _ => false

/-- The body has at least one numeric field (a candidate limit or
requested-value datum). -/
abbrev bodyHasSomeNat (b : JsonBody) : Prop :=
  ∃ f ∈ b, f.2.isNum = true

/-- Claim C5 counterexample: the dangerous-scheme rejection for the URL
`javascript:alert(1)` is a guardrail rejection whose body carries neither
the offending requested value (the URL never appears) nor any numeric
limit at all — contradicting "every guardrail rejection response body
includes both the specific limit that was exceeded and the offending
requested value". -/
theorem c5_counterexample :
    (handle_redirect_to Metrics.new "javascript:alert(1)").1.status = 400 ∧
    (handle_redirect_to Metrics.new "javascript:alert(1)").2.failed_requests = 1 ∧
    ¬ bodyHasStr (handle_redirect_to Metrics.new "javascript:alert(1)").1.body
        "javascript:alert(1)" ∧
    ¬ bodyHasSomeNat (handle_redirect_to Metrics.new "javascript:alert(1)").1.body := by
  decide

/-- Claim C5 (amended): the four numeric guardrail rejections (redirect
depth, delay, bytes, stream lines) each include both the exceeded limit
and the offending requested value in the response body; the URL-length
rejection body is the constant `error`/`max_length: 2048`/`message`
object (the limit but not the requested URL), and the dangerous-scheme
rejection body is the constant `error`/`message` object (neither limit
nor requested value). -/
theorem c5_rejection_bodies (m : Metrics) :
    (∀ d, d > 10 →
      bodyHasNat (handle_redirect m d).1.body MAX_REDIRECTS ∧
      bodyHasNat (handle_redirect m d).1.body d ∧
      bodyHasNat (handle_absolute_redirect m d).1.body MAX_REDIRECTS ∧
      bodyHasNat (handle_absolute_redirect m d).1.body d) ∧
    (∀ s, s > 10 →
      bodyHasNat (handle_delay m s).1.body MAX_DELAY ∧
      bodyHasNat (handle_delay m s).1.body s) ∧
    (∀ b, b > 100000 →
      bodyHasNat (handle_bytes m b).1.body MAX_BYTES ∧
      bodyHasNat (handle_bytes m b).1.body b) ∧
    (∀ n, n > 100 →
      bodyHasNat (handle_stream m n).1.body MAX_LINES ∧
      bodyHasNat (handle_stream m n).1.body n) ∧
    (∀ url, dangerous_protocols.any
        (fun protocol => strStartsWith (rustLower (rustTrim url)) protocol) = false →
      2048 < rustLen (rustTrim url) →
      (handle_redirect_to m url).1.body =
        [("error", JsonVal.s "URL too long"), ("max_length", JsonVal.n 2048),
         ("message", JsonVal.s "URL exceeds maximum allowed length")]) ∧
    (∀ url, dangerous_protocols.any
        (fun protocol => strStartsWith (rustLower (rustTrim url)) protocol) = true →
      (handle_redirect_to m url).1.body =
        [("error", JsonVal.s "Invalid protocol"),
         ("message", JsonVal.s "Protocol not allowed for security reasons")]) := by
  refine ⟨?_, ?_, ?_, ?_, ?_, ?_⟩
  · intro d hd
    have hgt : d > MAX_REDIRECTS := hd
    refine ⟨?_, ?_, ?_, ?_⟩ <;>
      simp [handle_redirect, handle_absolute_redirect, hgt, bodyHasNat]
  · intro s hs
    have hgt : s > MAX_DELAY := hs
    refine ⟨?_, ?_⟩ <;> simp [handle_delay, hgt, bodyHasNat]
  · intro b hb
    have hgt : b > MAX_BYTES := hb
    refine ⟨?_, ?_⟩ <;> simp [handle_bytes, hgt, bodyHasNat]
  · intro n hn
    have hgt : n > MAX_LINES := hn
    refine ⟨?_, ?_⟩ <;> simp [handle_stream, hgt, bodyHasNat]
  · intro url h1 h2
    simp [handle_redirect_to, h1, h2]
  · intro url h
    simp [handle_redirect_to, h]

/-- The 2049-character URL used to exercise the URL-length guardrail. -/
def longUrl : String := String.mk (List.replicate 2049 'a')

theorem dropWhile_ws_replicate_a (n : Nat) :
    (List.replicate n 'a').dropWhile Char.isWhitespace = List.replicate n 'a' := by
  cases n with
  | zero => rfl
  | succ k =>
      have hws : Char.isWhitespace 'a' = false := by decide
      simp [List.replicate_succ, List.dropWhile_cons, hws]

theorem trimChars_replicate_a (n : Nat) :
    trimChars (List.replicate n 'a') = List.replicate n 'a' := by
  simp [trimChars, dropWhile_ws_replicate_a, List.reverse_replicate]

theorem rustTrim_longUrl : rustTrim longUrl = longUrl := by
  show String.mk (trimChars (List.replicate 2049 'a')) = longUrl
  rw [trimChars_replicate_a]
  rfl

theorem rustLower_longUrl : rustLower longUrl = longUrl := by
  have hlo : Char.toLower 'a' = 'a' := by decide
  show String.mk ((List.replicate 2049 'a').map Char.toLower) = longUrl
  rw [List.map_replicate, hlo]
  rfl

theorem utf8Go_replicate_a (n : Nat) :
    String.utf8ByteSize.go (List.replicate n 'a') = n := by
  induction n with
  | zero => rfl
  | succ k ih =>
      have ha : Char.utf8Size 'a' = 1 := by decide
      simp only [List.replicate_succ, String.utf8ByteSize.go, ih, ha]

theorem rustLen_longUrl : rustLen (rustTrim longUrl) = 2049 := by
  rw [rustTrim_longUrl]
  exact utf8Go_replicate_a 2049

theorem longUrl_not_dangerous :
    dangerous_protocols.any
      (fun protocol => strStartsWith (rustLower (rustTrim longUrl)) protocol) = false := by
  rw [rustTrim_longUrl, rustLower_longUrl]
  have h2 : longUrl = String.mk ('a' :: List.replicate 2048 'a') := by
    rw [longUrl, show (2049 : Nat) = 2048 + 1 from rfl, List.replicate_succ]
  rw [h2]
  decide

/-- Witness for C5 (amended) at depth 11, delay 11, 100001 bytes, 101
stream lines, a 2049-character schemeless URL, and `javascript:x`. -/
theorem c5_rejection_bodies_witness :
    (bodyHasNat (handle_redirect Metrics.new 11).1.body MAX_REDIRECTS ∧
     bodyHasNat (handle_redirect Metrics.new 11).1.body 11 ∧
     bodyHasNat (handle_absolute_redirect Metrics.new 11).1.body MAX_REDIRECTS ∧
     bodyHasNat (handle_absolute_redirect Metrics.new 11).1.body 11) ∧
    (bodyHasNat (handle_delay Metrics.new 11).1.body MAX_DELAY ∧
     bodyHasNat (handle_delay Metrics.new 11).1.body 11) ∧
    (bodyHasNat (handle_bytes Metrics.new 100001).1.body MAX_BYTES ∧
     bodyHasNat (handle_bytes Metrics.new 100001).1.body 100001) ∧
    (bodyHasNat (handle_stream Metrics.new 101).1.body MAX_LINES ∧
     bodyHasNat (handle_stream Metrics.new 101).1.body 101) ∧
    (handle_redirect_to Metrics.new longUrl).1.body =
      [("error", JsonVal.s "URL too long"), ("max_length", JsonVal.n 2048),
       ("message", JsonVal.s "URL exceeds maximum allowed length")] ∧
    (handle_redirect_to Metrics.new "javascript:x").1.body =
      [("error", JsonVal.s "Invalid protocol"),
       ("message", JsonVal.s "Protocol not allowed for security reasons")] :=
  ⟨(c5_rejection_bodies Metrics.new).1 11 (by decide),
   (c5_rejection_bodies Metrics.new).2.1 11 (by decide),
   (c5_rejection_bodies Metrics.new).2.2.1 100001 (by decide),
   (c5_rejection_bodies Metrics.new).2.2.2.1 101 (by decide),
   (c5_rejection_bodies Metrics.new).2.2.2.2.1 longUrl longUrl_not_dangerous
     (by rw [rustLen_longUrl]; decide),
   (c5_rejection_bodies Metrics.new).2.2.2.2.2 "javascript:x" (by decide)⟩

/-- Claim C7 counterexample: `/status/404` runs to completion with no
internal fault, yet the handler increments `failed_requests` rather than
`successful_requests` — the status endpoint does not classify every
completed request as successful. -/
theorem c7_counterexample :
    (handle_status Metrics.new 404).1.status = 404 ∧
    (handle_status Metrics.new 404).2.failed_requests = 1 ∧
    (handle_status Metrics.new 404).2.successful_requests = 0 := by
  decide

/-- Claim C7 (amended): the unguarded plain echo/payload endpoints always
classify a completed request as successful; the status endpoint instead
classifies it by whether the effective status code is in the 2xx range,
and the auth endpoints classify it by whether authentication succeeded
(200) or failed (401). -/
theorem c7_unguarded_classification :
    (∀ m key, (simpleSuccessHandler m key).2.successful_requests
        = m.successful_requests + 1 ∧
      (simpleSuccessHandler m key).2.failed_requests = m.failed_requests) ∧
    (∀ m, (handle_get m).2.successful_requests = m.successful_requests + 1 ∧
      (handle_get m).2.failed_requests = m.failed_requests) ∧
    (∀ m, (handle_headers m).2.successful_requests = m.successful_requests + 1 ∧
      (handle_headers m).2.failed_requests = m.failed_requests) ∧
    (∀ m, (handle_ip m).2.successful_requests = m.successful_requests + 1 ∧
      (handle_ip m).2.failed_requests = m.failed_requests) ∧
    (∀ m, (handle_user_agent m).2.successful_requests = m.successful_requests + 1 ∧
      (handle_user_agent m).2.failed_requests = m.failed_requests) ∧
    (∀ m, (handle_json m).2.successful_requests = m.successful_requests + 1 ∧
      (handle_json m).2.failed_requests = m.failed_requests) ∧
    (∀ m, (handle_uuid m).2.successful_requests = m.successful_requests + 1 ∧
      (handle_uuid m).2.failed_requests = m.failed_requests) ∧
    (∀ m, (handle_anything m).2.successful_requests = m.successful_requests + 1 ∧
      (handle_anything m).2.failed_requests = m.failed_requests) ∧
    (∀ m c, (isSuccessStatus (statusFromU16 c) = true →
        (handle_status m c).2.successful_requests = m.successful_requests + 1 ∧
        (handle_status m c).2.failed_requests = m.failed_requests) ∧
      (isSuccessStatus (statusFromU16 c) = false →
        (handle_status m c).2.failed_requests = m.failed_requests + 1 ∧
        (handle_status m c).2.successful_requests = m.successful_requests)) ∧
    (∀ m u p cred, ((handle_basic_auth m u p cred).1.status = 200 →
        (handle_basic_auth m u p cred).2.successful_requests = m.successful_requests + 1 ∧
        (handle_basic_auth m u p cred).2.failed_requests = m.failed_requests) ∧
      ((handle_basic_auth m u p cred).1.status = 401 →
        (handle_basic_auth m u p cred).2.failed_requests = m.failed_requests + 1 ∧
        (handle_basic_auth m u p cred).2.successful_requests = m.successful_requests)) ∧
    (∀ m tok, ((handle_bearer_auth m tok).1.status = 200 →
        (handle_bearer_auth m tok).2.successful_requests = m.successful_requests + 1 ∧
        (handle_bearer_auth m tok).2.failed_requests = m.failed_requests) ∧
      ((handle_bearer_auth m tok).1.status = 401 →
        (handle_bearer_auth m tok).2.failed_requests = m.failed_requests + 1 ∧
        (handle_bearer_auth m tok).2.successful_requests = m.successful_requests)) := by
  refine ⟨?_, ?_, ?_, ?_, ?_, ?_, ?_, ?_, ?_, ?_, ?_⟩
  · intro m key
    exact ⟨rfl, rfl⟩
  all_goals
    first
    | (intro m; exact ⟨rfl, rfl⟩)
    | skip
  · intro m c
    constructor
    · intro h
      refine ⟨?_, ?_⟩ <;>
        simp [handle_status, h, Metrics.increment_total, Metrics.record_endpoint,
          Metrics.increment_success]
    · intro h
      refine ⟨?_, ?_⟩ <;>
        simp [handle_status, h, Metrics.increment_total, Metrics.record_endpoint,
          Metrics.increment_failed]
  · intro m u p cred
    simp only [handle_basic_auth]
    rcases cred with _ | cr
    · refine ⟨fun h => ?_, fun _ => ⟨rfl, rfl⟩⟩
      simp at h
    · rcases hsp : splitFirstColon cr.data with _ | parts
      · simp only [hsp]
        refine ⟨fun h => ?_, fun _ => ⟨rfl, rfl⟩⟩
        simp at h
      · simp only [hsp]
        split
        · refine ⟨fun _ => ⟨rfl, rfl⟩, fun h => ?_⟩
          simp at h
        · refine ⟨fun h => ?_, fun _ => ⟨rfl, rfl⟩⟩
          simp at h
  · intro m tok
    rcases tok with _ | t
    · refine ⟨fun h => ?_, fun _ => ⟨rfl, rfl⟩⟩
      simp [handle_bearer_auth] at h
    · refine ⟨fun _ => ⟨rfl, rfl⟩, fun h => ?_⟩
      simp [handle_bearer_auth] at h

/-- Witness for C7 (amended): `/status/200` succeeds, `/status/404`
fails, matching basic-auth credentials succeed, a missing bearer token
fails. -/
theorem c7_unguarded_classification_witness :
    ((handle_status Metrics.new 200).2.successful_requests
        = Metrics.new.successful_requests + 1 ∧
      (handle_status Metrics.new 200).2.failed_requests = Metrics.new.failed_requests) ∧
    ((handle_status Metrics.new 404).2.failed_requests
        = Metrics.new.failed_requests + 1 ∧
      (handle_status Metrics.new 404).2.successful_requests
        = Metrics.new.successful_requests) ∧
    ((handle_basic_auth Metrics.new "u" "p" (some "u:p")).2.successful_requests
        = Metrics.new.successful_requests + 1 ∧
      (handle_basic_auth Metrics.new "u" "p" (some "u:p")).2.failed_requests
        = Metrics.new.failed_requests) ∧
    ((handle_bearer_auth Metrics.new none).2.failed_requests
        = Metrics.new.failed_requests + 1 ∧
      (handle_bearer_auth Metrics.new none).2.successful_requests
        = Metrics.new.successful_requests) :=
  ⟨((c7_unguarded_classification.2.2.2.2.2.2.2.2.1 Metrics.new 200).1 (by decide)),
   ((c7_unguarded_classification.2.2.2.2.2.2.2.2.1 Metrics.new 404).2 (by decide)),
   ((c7_unguarded_classification.2.2.2.2.2.2.2.2.2.1 Metrics.new "u" "p" (some "u:p")).1
     (by decide)),
   ((c7_unguarded_classification.2.2.2.2.2.2.2.2.2.2 Metrics.new none).2 (by decide))⟩

/-- Witness for C6 at `/delay/3` from the fresh state. -/
theorem c6_request_outcome_recorder_witness :
    perRequestAccounting Metrics.new (handle_delay Metrics.new 3).2
      ("/delay/" ++ toString 3) :=
  c6_request_outcome_recorder.2.2.2.1 Metrics.new 3

/-- Witness for C8 (amended) with user `alice` and passwords `p1`, `p2`. -/
theorem c8_basic_auth_key_redaction_witness :
    (handle_basic_auth Metrics.new "alice" "p1" none).2.endpoint_stats
      = recordKey Metrics.new.endpoint_stats ("/basic-auth/" ++ "alice" ++ "/" ++ "***") ∧
    (handle_basic_auth Metrics.new "alice" "p1" none).2.endpoint_stats
      = (handle_basic_auth Metrics.new "alice" "p2" none).2.endpoint_stats :=
  c8_basic_auth_key_redaction Metrics.new "alice" "p1" "p2" none

/-- Witness for C9: three concurrent `incrTotal` calls from the fresh
state leave `total_requests` at exactly 3. -/
theorem c9_no_lost_updates_witness :
    (runSchedule Metrics.new
      [MetricAction.incrTotal, MetricAction.incrTotal, MetricAction.incrTotal]).total_requests
      = 3 :=
  c9_no_lost_updates.2
    [MetricAction.incrTotal, MetricAction.incrTotal, MetricAction.incrTotal] (by decide)

/-- Witness for C10 from the fresh state. -/
theorem c10_metrics_snapshot_self_count_witness :
    (handle_metrics Metrics.new).1.total_requests = Metrics.new.total_requests + 1 ∧
    1 ≤ (handle_metrics Metrics.new).1.total_requests ∧
    countOf (handle_metrics Metrics.new).1.endpoint_stats "/metrics"
      = countOf Metrics.new.endpoint_stats "/metrics" + 1 ∧
    1 ≤ countOf (handle_metrics Metrics.new).1.endpoint_stats "/metrics" ∧
    (handle_metrics Metrics.new).1.successful_requests = Metrics.new.successful_requests ∧
    (handle_metrics Metrics.new).2.successful_requests
      = Metrics.new.successful_requests + 1 :=
  c10_metrics_snapshot_self_count Metrics.new

end RustJin
